import Mathlib

/-!
Verification of the fakepostmaster PostgreSQL-v3 wire-protocol library.

The development shallowly embeds the Rust sources:
* `libpq-serde-types/src/libpq_types.rs` — the primitive codec
  (integers, bytes, C strings, `Vec16`/`Vec32`/`VecNull`);
* `src/message.rs` — the typed message records, the kind-byte enums and
  the raw-envelope decoders;
* `src/handler/server.rs` — the backend handlers
  (`md5_authentication_handler`, `simple_query_handler`);
* `src/main.rs` and `src/backend.rs` — the hand-rolled frame composers.

Bytes are modelled as `Nat` (values < 256 on real wires), byte buffers as
`List Nat`, Rust `i16`/`i32` as `Int` with explicit two's-complement
reduction where the source casts, and fallible Rust functions as
`Except Err`.  A Rust panic is modelled by `PanicOr.panics`.
-/

namespace Fpm

/-- Error outcomes of the codec and of the connection handlers;
`anyhow::Error` values are classified by which source error path built
them. -/
inductive Err where
  | underflow
  | incorrectTerminator
  | missingNullTerminator
  | divergence
  | invalidRequestCode
  | unexpectedMessage
  | ambiguousKind
  | unsupportedKind
  | passwordExpected
  | queryExpected
  | authFailed
  | invalidCommandTag
  | notUtf8
  deriving DecidableEq, Repr

/-- Result of running code that can hit a Rust panic (slice index out of
range, `vec![0; n]` capacity overflow). -/
inductive PanicOr (α : Type) where
  | panics
  | ret (a : α)
  deriving DecidableEq, Repr

/-- Two's-complement reading of a 16-bit big-endian value. -/
def toSigned16 (n : Nat) : Int :=
  if n < 32768 then (n : Int) else (n : Int) - 65536

/-- Two's-complement reading of a 32-bit big-endian value. -/
def toSigned32 (n : Nat) : Int :=
  if n < 2147483648 then (n : Int) else (n : Int) - 4294967296

/-- The Rust cast `n as i32` (wrap into the signed 32-bit range). -/
def i32cast (n : Int) : Int :=
  (n + 2147483648) % 4294967296 - 2147483648

/-- Big-endian recombination of a byte list into a `Nat`
(`i32::from_be_bytes` composed with the slice copy). -/
def be_of (bs : List Nat) : Nat :=
  bs.foldl (fun a b => a * 256 + b) 0

/-- A deserializer in the style of the `Deserialize` trait: it consumes a
prefix of the buffer and returns the value plus the remaining buffer. -/
abbrev DesFun (α : Type) := List Nat → Except Err (α × List Nat)

/-! ### Primitive codec (`libpq_types.rs`) -/

/-- Source `impl Serialize for Byte` — `put_u8`. -/
def u8_serialize (b : Nat) : List Nat := [b]

/-- Source `impl Deserialize for Byte` — `try_get_u8`. -/
def u8_deserialize : DesFun Nat
  | [] => .error .underflow
  | b :: rest => .ok (b, rest)

/-- Source `impl Serialize for i16` — `put_i16`, big endian. -/
def i16_serialize (x : Int) : List Nat :=
  [(x % 65536).toNat / 256, (x % 65536).toNat % 256]

/-- Source `impl Deserialize for i16` — `try_get_i16`, big endian. -/
def i16_deserialize : DesFun Int
  | b0 :: b1 :: rest => .ok (toSigned16 (b0 * 256 + b1), rest)
  | _ => .error .underflow

/-- Source `impl Serialize for i32` — `put_i32`, big endian. -/
def i32_serialize (x : Int) : List Nat :=
  [(x % 4294967296).toNat / 16777216,
   (x % 4294967296).toNat / 65536 % 256,
   (x % 4294967296).toNat / 256 % 256,
   (x % 4294967296).toNat % 256]

/-- Source `impl Deserialize for i32` — `try_get_i32`, big endian. -/
def i32_deserialize : DesFun Int
  | b0 :: b1 :: b2 :: b3 :: rest =>
      .ok (toSigned32 (((b0 * 256 + b1) * 256 + b2) * 256 + b3), rest)
  | _ => .error .underflow

/-- Source `impl Serialize for Byte4` — `put_slice` of the four bytes. -/
def byte4_serialize (b : List Nat) : List Nat := b

/-- Source `impl Deserialize for Byte4` — `try_copy_to_slice` into `[u8; 4]`. -/
def byte4_deserialize : DesFun (List Nat) := fun buf =>
  if 4 ≤ buf.length then .ok (buf.take 4, buf.drop 4) else .error .underflow

/-- Source `impl Serialize for CString` — payload bytes then a single `0x00`. -/
def cstring_serialize (s : List Nat) : List Nat := s ++ [0]

/-- Source `impl Deserialize for CString` — read bytes up to and including the
first `0x00`; the terminator is consumed and not part of the payload. -/
def cstring_deserialize : DesFun (List Nat)
  | [] => .error .underflow
  | b :: rest =>
    if b = 0 then .ok ([], rest)
    else
      match cstring_deserialize rest with
      | .ok (s, r) => .ok (b :: s, r)
      | .error e => .error e

/-- Source `impl ByteSized for CString` — `count_bytes() as i32 + 1`. -/
def cstring_byte_size (s : List Nat) : Int := i32cast s.length + 1

/-- Serialization of a list of elements in order (the
`for elt in &self.0 { elt.serialize(buffer) }` loops). -/
def serialize_all (s : α → List Nat) : List α → List Nat
  | [] => []
  | x :: xs => s x ++ serialize_all s xs

/-- Summed byte sizes of a list of elements (the
`size += elt.byte_size()` loops). -/
def size_all (sz : α → Int) : List α → Int
  | [] => 0
  | x :: xs => sz x + size_all sz xs

/-- The `for _ in 0..len { v.0.push(T::deserialize(buffer)?) }` loop:
deserialize exactly `n` elements. -/
def deserialize_count (d : DesFun α) : Nat → DesFun (List α)
  | 0, buf => .ok ([], buf)
  | n + 1, buf =>
    match d buf with
    | .ok (x, rest) =>
      match deserialize_count d n rest with
      | .ok (xs, r) => .ok (x :: xs, r)
      | .error e => .error e
    | .error e => .error e

/-- Source `Vec16::serialize` — `self.0.len() as i16` big endian, then the
elements in order.  The bytes of `put_i16(len as i16)` are exactly
`i16_serialize (len : Int)` because `i16_serialize` reduces mod 2^16. -/
def vec16_serialize (s : α → List Nat) (xs : List α) : List Nat :=
  i16_serialize (xs.length : Int) ++ serialize_all s xs

/-- Source `Vec16::deserialize` — read a signed 16-bit count, then that many
elements; a negative count yields an empty iteration `0..len`. -/
def vec16_deserialize (d : DesFun α) : DesFun (List α) := fun buf =>
  match i16_deserialize buf with
  | .ok (len, rest) => deserialize_count d len.toNat rest
  | .error e => .error e

/-- Source `Vec16::byte_size` — 2 plus the elements' sizes. -/
def vec16_byte_size (sz : α → Int) (xs : List α) : Int :=
  2 + size_all sz xs

/-- Source `Vec32::serialize` — `self.0.len() as i32` big endian, then the
elements in order. -/
def vec32_serialize (s : α → List Nat) (xs : List α) : List Nat :=
  i32_serialize (xs.length : Int) ++ serialize_all s xs

/-- Source `Vec32::deserialize` — read a signed 32-bit count, then that many
elements; a negative count yields an empty iteration `0..len`. -/
def vec32_deserialize (d : DesFun α) : DesFun (List α) := fun buf =>
  match i32_deserialize buf with
  | .ok (len, rest) => deserialize_count d len.toNat rest
  | .error e => .error e

/-- Source `Vec32::byte_size` — 4 plus the elements' sizes. -/
def vec32_byte_size (sz : α → Int) (xs : List α) : Int :=
  4 + size_all sz xs

/-- Source `VecNull::serialize` — the elements in order, then a `0x00`. -/
def vec_null_serialize (s : α → List Nat) (xs : List α) : List Nat :=
  serialize_all s xs ++ [0]

/-- The `loop` of `VecNull::deserialize`, with explicit fuel standing in
for the source's unbounded loop.  `Err.divergence` marks fuel exhaustion,
which corresponds to the Rust loop not terminating; it is unreachable for
every element deserializer that consumes at least one byte. -/
def vec_null_go (d : DesFun α) : Nat → DesFun (List α)
  | 0, _ => .error .divergence
  | fuel + 1, buf =>
    if buf.length = 1 then
      if buf.headI = 0 then .ok ([], []) else .error .incorrectTerminator
    else if buf.length = 0 then .error .missingNullTerminator
    else
      match d buf with
      | .ok (x, rest) =>
        match vec_null_go d fuel rest with
        | .ok (xs, r) => .ok (x :: xs, r)
        | .error e => .error e
      | .error e => .error e

/-- Source `VecNull::deserialize` — parse elements while more than one byte
remains; a final lone byte must be the `0x00` terminator. -/
def vec_null_deserialize (d : DesFun α) : DesFun (List α) := fun buf =>
  vec_null_go d (buf.length + 1) buf

/-- Source `VecNull::byte_size` — 1 plus the elements' sizes. -/
def vec_null_byte_size (sz : α → Int) (xs : List α) : Int :=
  1 + size_all sz xs

/-! ### Typed messages (`src/message.rs`)

Each record's `serialize`/`deserialize`/`byte_size` is the field-wise
concatenation generated by the `SerdeLibpqData` derive: fields are
processed in declaration order. -/

/-- Source `AuthenticationOk` — body is the sub-kind integer `code` (0). -/
structure AuthenticationOk where
  code : Int
  deriving DecidableEq, Repr

def AuthenticationOk.serialize (m : AuthenticationOk) : List Nat :=
  i32_serialize m.code

def AuthenticationOk.deserialize : DesFun AuthenticationOk := fun buf =>
  match i32_deserialize buf with
  | .ok (code, buf) => .ok ({ code }, buf)
  | .error e => .error e

def AuthenticationOk.byte_size (_ : AuthenticationOk) : Int := 4

/-- Source `AuthenticationOk::new()`. -/
def AuthenticationOk.new : AuthenticationOk := { code := 0 }

/-- Source `AuthenticationMD5Password` — sub-kind `code` (5) and a 4-byte salt. -/
structure AuthenticationMD5Password where
  code : Int
  salt : List Nat
  deriving DecidableEq, Repr

def AuthenticationMD5Password.serialize (m : AuthenticationMD5Password) : List Nat :=
  i32_serialize m.code ++ byte4_serialize m.salt

def AuthenticationMD5Password.deserialize : DesFun AuthenticationMD5Password := fun buf =>
  match i32_deserialize buf with
  | .ok (code, buf) =>
    match byte4_deserialize buf with
    | .ok (salt, buf) => .ok ({ code, salt }, buf)
    | .error e => .error e
  | .error e => .error e

def AuthenticationMD5Password.byte_size (_ : AuthenticationMD5Password) : Int := 8

/-- Source `AuthenticationMD5Password::new(salt)`. -/
def AuthenticationMD5Password.new (salt : List Nat) : AuthenticationMD5Password :=
  { code := 5, salt }

/-- Source `BackendKeyData` — process id and secret key. -/
structure BackendKeyData where
  process_id : Int
  secret_key : Int
  deriving DecidableEq, Repr

def BackendKeyData.serialize (m : BackendKeyData) : List Nat :=
  i32_serialize m.process_id ++ i32_serialize m.secret_key

def BackendKeyData.deserialize : DesFun BackendKeyData := fun buf =>
  match i32_deserialize buf with
  | .ok (process_id, buf) =>
    match i32_deserialize buf with
    | .ok (secret_key, buf) => .ok ({ process_id, secret_key }, buf)
    | .error e => .error e
  | .error e => .error e

def BackendKeyData.byte_size (_ : BackendKeyData) : Int := 8

/-- Source `CommandComplete` — the command tag as a C string. -/
structure CommandComplete where
  command_tag : List Nat
  deriving DecidableEq, Repr

def CommandComplete.serialize (m : CommandComplete) : List Nat :=
  cstring_serialize m.command_tag

def CommandComplete.deserialize : DesFun CommandComplete := fun buf =>
  match cstring_deserialize buf with
  | .ok (command_tag, buf) => .ok ({ command_tag }, buf)
  | .error e => .error e

def CommandComplete.byte_size (m : CommandComplete) : Int :=
  cstring_byte_size m.command_tag

/-- Source `CommandComplete::new` — fails when the tag has an interior NUL
(`CString::new`). -/
def CommandComplete.new (tag : List Nat) : Except Err CommandComplete :=
  if 0 ∈ tag then .error .invalidCommandTag else .ok { command_tag := tag }

/-- Source `ColumnData = Vec32<Byte>`: one column value of a `DataRow`. -/
def column_data_serialize (col : List Nat) : List Nat :=
  vec32_serialize u8_serialize col

def column_data_deserialize : DesFun (List Nat) :=
  vec32_deserialize u8_deserialize

def column_data_byte_size (col : List Nat) : Int :=
  vec32_byte_size (fun _ => 1) col

/-- Source `DataRow` — a `Vec16` of `ColumnData` column values. -/
structure DataRow where
  columns : List (List Nat)
  deriving DecidableEq, Repr

def DataRow.serialize (m : DataRow) : List Nat :=
  vec16_serialize column_data_serialize m.columns

def DataRow.deserialize : DesFun DataRow := fun buf =>
  match vec16_deserialize column_data_deserialize buf with
  | .ok (columns, buf) => .ok ({ columns }, buf)
  | .error e => .error e

def DataRow.byte_size (m : DataRow) : Int :=
  vec16_byte_size column_data_byte_size m.columns

/-- Source `ErrorMessage` — a field code byte and a C-string message. -/
structure ErrorMessage where
  code : Nat
  message : List Nat
  deriving DecidableEq, Repr

def ErrorMessage.serialize (m : ErrorMessage) : List Nat :=
  u8_serialize m.code ++ cstring_serialize m.message

def ErrorMessage.deserialize : DesFun ErrorMessage := fun buf =>
  match u8_deserialize buf with
  | .ok (code, buf) =>
    match cstring_deserialize buf with
    | .ok (message, buf) => .ok ({ code, message }, buf)
    | .error e => .error e
  | .error e => .error e

def ErrorMessage.byte_size (m : ErrorMessage) : Int :=
  1 + cstring_byte_size m.message

/-- Source `ErrorResponse` — a `VecNull` of `ErrorMessage` fields. -/
structure ErrorResponse where
  messages : List ErrorMessage
  deriving DecidableEq, Repr

def ErrorResponse.serialize (m : ErrorResponse) : List Nat :=
  vec_null_serialize ErrorMessage.serialize m.messages

def ErrorResponse.deserialize : DesFun ErrorResponse := fun buf =>
  match vec_null_deserialize ErrorMessage.deserialize buf with
  | .ok (messages, buf) => .ok ({ messages }, buf)
  | .error e => .error e

def ErrorResponse.byte_size (m : ErrorResponse) : Int :=
  vec_null_byte_size ErrorMessage.byte_size m.messages

/-- Source `ParameterStatus` — a name/value pair of C strings. -/
structure ParameterStatus where
  name : List Nat
  value : List Nat
  deriving DecidableEq, Repr

def ParameterStatus.serialize (m : ParameterStatus) : List Nat :=
  cstring_serialize m.name ++ cstring_serialize m.value

def ParameterStatus.deserialize : DesFun ParameterStatus := fun buf =>
  match cstring_deserialize buf with
  | .ok (name, buf) =>
    match cstring_deserialize buf with
    | .ok (value, buf) => .ok ({ name, value }, buf)
    | .error e => .error e
  | .error e => .error e

def ParameterStatus.byte_size (m : ParameterStatus) : Int :=
  cstring_byte_size m.name + cstring_byte_size m.value

/-- Source `PasswordMessage` — the (possibly hashed) password as a C string. -/
structure PasswordMessage where
  password : List Nat
  deriving DecidableEq, Repr

def PasswordMessage.serialize (m : PasswordMessage) : List Nat :=
  cstring_serialize m.password

def PasswordMessage.deserialize : DesFun PasswordMessage := fun buf =>
  match cstring_deserialize buf with
  | .ok (password, buf) => .ok ({ password }, buf)
  | .error e => .error e

def PasswordMessage.byte_size (m : PasswordMessage) : Int :=
  cstring_byte_size m.password

/-- Source `Query` — the query text as a C string. -/
structure Query where
  query : List Nat
  deriving DecidableEq, Repr

def Query.serialize (m : Query) : List Nat :=
  cstring_serialize m.query

def Query.deserialize : DesFun Query := fun buf =>
  match cstring_deserialize buf with
  | .ok (query, buf) => .ok ({ query }, buf)
  | .error e => .error e

def Query.byte_size (m : Query) : Int :=
  cstring_byte_size m.query

/-- Source `ReadyForQuery` — the transaction-status byte. -/
structure ReadyForQuery where
  transaction_indicator : Nat
  deriving DecidableEq, Repr

def ReadyForQuery.serialize (m : ReadyForQuery) : List Nat :=
  u8_serialize m.transaction_indicator

def ReadyForQuery.deserialize : DesFun ReadyForQuery := fun buf =>
  match u8_deserialize buf with
  | .ok (transaction_indicator, buf) => .ok ({ transaction_indicator }, buf)
  | .error e => .error e

def ReadyForQuery.byte_size (_ : ReadyForQuery) : Int := 1

/-- Source `ColumnDescription` — one field of a `RowDescription`. -/
structure ColumnDescription where
  name : List Nat
  relation_id : Int
  attribute_id : Int
  datatype_id : Int
  datatype_len : Int
  datatype_mod : Int
  format : Int
  deriving DecidableEq, Repr

def ColumnDescription.serialize (m : ColumnDescription) : List Nat :=
  cstring_serialize m.name ++ i32_serialize m.relation_id ++
  i16_serialize m.attribute_id ++ i32_serialize m.datatype_id ++
  i16_serialize m.datatype_len ++ i32_serialize m.datatype_mod ++
  i16_serialize m.format

def ColumnDescription.deserialize : DesFun ColumnDescription := fun buf =>
  match cstring_deserialize buf with
  | .error e => .error e
  | .ok (name, buf) =>
  match i32_deserialize buf with
  | .error e => .error e
  | .ok (relation_id, buf) =>
  match i16_deserialize buf with
  | .error e => .error e
  | .ok (attribute_id, buf) =>
  match i32_deserialize buf with
  | .error e => .error e
  | .ok (datatype_id, buf) =>
  match i16_deserialize buf with
  | .error e => .error e
  | .ok (datatype_len, buf) =>
  match i32_deserialize buf with
  | .error e => .error e
  | .ok (datatype_mod, buf) =>
  match i16_deserialize buf with
  | .error e => .error e
  | .ok (format, buf) =>
    .ok ({ name, relation_id, attribute_id, datatype_id,
           datatype_len, datatype_mod, format }, buf)

def ColumnDescription.byte_size (m : ColumnDescription) : Int :=
  cstring_byte_size m.name + 4 + 2 + 4 + 2 + 4 + 2

/-- Source `RowDescription` — a `Vec16` of column descriptions. -/
structure RowDescription where
  columns : List ColumnDescription
  deriving DecidableEq, Repr

def RowDescription.serialize (m : RowDescription) : List Nat :=
  vec16_serialize ColumnDescription.serialize m.columns

def RowDescription.deserialize : DesFun RowDescription := fun buf =>
  match vec16_deserialize ColumnDescription.deserialize buf with
  | .ok (columns, buf) => .ok ({ columns }, buf)
  | .error e => .error e

def RowDescription.byte_size (m : RowDescription) : Int :=
  vec16_byte_size ColumnDescription.byte_size m.columns

/-- Source `ProtocolVersion` — the major/minor version pair. -/
structure ProtocolVersion where
  major : Int
  minor : Int
  deriving DecidableEq, Repr

/-- Source `StartupMessage` — protocol version then a `VecNull` of
name/value parameter pairs. -/
structure StartupMessage where
  protocol_version : ProtocolVersion
  parameters : List ParameterStatus
  deriving DecidableEq, Repr

def StartupMessage.serialize (m : StartupMessage) : List Nat :=
  i16_serialize m.protocol_version.major ++
  i16_serialize m.protocol_version.minor ++
  vec_null_serialize ParameterStatus.serialize m.parameters

def StartupMessage.deserialize : DesFun StartupMessage := fun buf =>
  match i16_deserialize buf with
  | .error e => .error e
  | .ok (major, buf) =>
  match i16_deserialize buf with
  | .error e => .error e
  | .ok (minor, buf) =>
  match vec_null_deserialize ParameterStatus.deserialize buf with
  | .error e => .error e
  | .ok (parameters, buf) =>
    .ok ({ protocol_version := { major, minor }, parameters }, buf)

def StartupMessage.byte_size (m : StartupMessage) : Int :=
  2 + 2 + vec_null_byte_size ParameterStatus.byte_size m.parameters

/-! ### Message-kind enums and their byte conversions (`src/message.rs`) -/

/-- Source `BackendMessageKind` — all messages sent by the backend. -/
inductive BackendMessageKind where
  | Authentication
  | BackendKeyData
  | BindComplete
  | CloseCompleten
  | CommandComplete
  | CopyData
  | CopyDone
  | CopyInResponse
  | CopyOutResponse
  | CopyBothResponse
  | DataRow
  | EmptyQuery
  | ErrorResponse
  | FunctionCallResponse
  | NegotiateProtocolVersion
  | NoData
  | NoticeResponse
  | NotificationResponse
  | ParameterDescription
  | ParameterStatus
  | ParseComplete
  | PortalSuspended
  | ReadyForQuery
  | RowDescription
  deriving DecidableEq, Repr

/-- Source `impl From<&BackendMessageKind> for u8`. -/
def BackendMessageKind.u8_from : BackendMessageKind → Nat
  | .Authentication => 82
  | .BackendKeyData => 75
  | .BindComplete => 50
  | .CloseCompleten => 51
  | .CommandComplete => 67
  | .CopyData => 100
  | .CopyDone => 99
  | .CopyInResponse => 71
  | .CopyOutResponse => 72
  | .CopyBothResponse => 87
  | .DataRow => 68
  | .EmptyQuery => 73
  | .ErrorResponse => 69
  | .FunctionCallResponse => 86
  | .NegotiateProtocolVersion => 118
  | .NoData => 110
  | .NoticeResponse => 78
  | .NotificationResponse => 65
  | .ParameterDescription => 116
  | .ParameterStatus => 83
  | .ParseComplete => 49
  | .PortalSuspended => 115
  | .ReadyForQuery => 90
  | .RowDescription => 84

/-- Source `impl TryFrom<u8> for BackendMessageKind`. -/
def BackendMessageKind.try_from (msg_code : Nat) : Except Err BackendMessageKind :=
  if msg_code = 82 then .ok .Authentication
  else if msg_code = 75 then .ok .BackendKeyData
  else if msg_code = 50 then .ok .BindComplete
  else if msg_code = 51 then .ok .CloseCompleten
  else if msg_code = 67 then .ok .CommandComplete
  else if msg_code = 100 then .ok .CopyData
  else if msg_code = 99 then .ok .CopyDone
  else if msg_code = 71 then .ok .CopyInResponse
  else if msg_code = 72 then .ok .CopyOutResponse
  else if msg_code = 87 then .ok .CopyBothResponse
  else if msg_code = 68 then .ok .DataRow
  else if msg_code = 73 then .ok .EmptyQuery
  else if msg_code = 69 then .ok .ErrorResponse
  else if msg_code = 86 then .ok .FunctionCallResponse
  else if msg_code = 118 then .ok .NegotiateProtocolVersion
  else if msg_code = 110 then .ok .NoData
  else if msg_code = 78 then .ok .NoticeResponse
  else if msg_code = 65 then .ok .NotificationResponse
  else if msg_code = 116 then .ok .ParameterDescription
  else if msg_code = 83 then .ok .ParameterStatus
  else if msg_code = 49 then .ok .ParseComplete
  else if msg_code = 115 then .ok .PortalSuspended
  else if msg_code = 90 then .ok .ReadyForQuery
  else if msg_code = 84 then .ok .RowDescription
  else .error .unsupportedKind

/-- Source `FrontendMessageKind` — all messages sent by the frontend. -/
inductive FrontendMessageKind where
  | Bind
  | Close
  | CopyData
  | CopyDone
  | CopyFail
  | Describe
  | Execute
  | Flush
  | FunctionCall
  | GSSResponse
  | Parse
  | PasswordMessage
  | Query
  | SASLInitialResponse
  | SASLResponse
  | Terminate
  deriving DecidableEq, Repr

/-- Source `impl From<&FrontendMessageKind> for u8` as written in the source:
note `Flush => 'F'` (70) and `FunctionCall => 'H'` (72). -/
def FrontendMessageKind.u8_from : FrontendMessageKind → Nat
  | .Bind => 66
  | .Close => 67
  | .CopyData => 100
  | .CopyDone => 99
  | .CopyFail => 102
  | .Describe => 68
  | .Execute => 69
  | .Flush => 70
  | .FunctionCall => 72
  | .GSSResponse => 112
  | .Parse => 80
  | .PasswordMessage => 112
  | .Query => 81
  | .SASLInitialResponse => 112
  | .SASLResponse => 112
  | .Terminate => 88

/-- Source `impl TryFrom<u8> for FrontendMessageKind` as written in the source:
`0x46 'F' => Flush`, `0x48 'H' => FunctionCall`, and both `0x70 'p'` and
`0x50 'P'` are rejected as context-dependent. -/
def FrontendMessageKind.try_from (msg_code : Nat) : Except Err FrontendMessageKind :=
  if msg_code = 66 then .ok .Bind
  else if msg_code = 67 then .ok .Close
  else if msg_code = 100 then .ok .CopyData
  else if msg_code = 99 then .ok .CopyDone
  else if msg_code = 102 then .ok .CopyFail
  else if msg_code = 68 then .ok .Describe
  else if msg_code = 69 then .ok .Execute
  else if msg_code = 70 then .ok .Flush
  else if msg_code = 72 then .ok .FunctionCall
  else if msg_code = 81 then .ok .Query
  else if msg_code = 88 then .ok .Terminate
  else if msg_code = 112 then .error .ambiguousKind
  else if msg_code = 80 then .error .ambiguousKind
  else .error .unsupportedKind

/-- Source `AuthenticationMessageKind` — sub-kinds of `Authentication` (R). -/
inductive AuthenticationMessageKind where
  | Ok
  | KerberosV5
  | CleartextPassword
  | MD5Password
  | GSS
  | GSSContinue
  | SSPI
  | SASL
  | SASLContinue
  | SASLFinal
  deriving DecidableEq, Repr

/-- Source `impl TryFrom<i32> for AuthenticationMessageKind`. -/
def AuthenticationMessageKind.try_from (msg_code : Int) : Except Err AuthenticationMessageKind :=
  if msg_code = 0 then .ok .Ok
  else if msg_code = 2 then .ok .KerberosV5
  else if msg_code = 3 then .ok .CleartextPassword
  else if msg_code = 5 then .ok .MD5Password
  else if msg_code = 7 then .ok .GSS
  else if msg_code = 8 then .ok .GSSContinue
  else if msg_code = 9 then .ok .SSPI
  else if msg_code = 10 then .ok .SASL
  else if msg_code = 11 then .ok .SASLContinue
  else if msg_code = 12 then .ok .SASLFinal
  else .error .unsupportedKind

/-- Source `RequestMessageKind` — startup-phase requests (no kind byte). -/
inductive RequestMessageKind where
  | StartupMessage
  | CancelRequest
  | GSSENCRequest
  | SSLRequest
  deriving DecidableEq, Repr

/-- Source `impl TryFrom<i32> for RequestMessageKind`. -/
def RequestMessageKind.try_from (request_code : Int) : Except Err RequestMessageKind :=
  if request_code = 196608 then .ok .StartupMessage
  else if request_code = 80877102 then .ok .CancelRequest
  else if request_code = 80877104 then .ok .GSSENCRequest
  else if request_code = 80877103 then .ok .SSLRequest
  else .error .invalidRequestCode

/-! ### Raw envelopes (`src/message.rs`) -/

/-- Source `MessageHeader` — kind byte plus frame length. -/
structure MessageHeader where
  message_type : Nat
  length : Int
  deriving DecidableEq, Repr

/-- Source `RawBackendMessage` — a decoded `{kind, length, body}` envelope. -/
structure RawBackendMessage where
  header : MessageHeader
  raw_body : List Nat
  deriving DecidableEq, Repr

/-- Source `RawBackendMessage::get_message_kind`. -/
def RawBackendMessage.get_message_kind (m : RawBackendMessage) :
    Option BackendMessageKind :=
  (BackendMessageKind.try_from m.header.message_type).toOption

/-- Source `RawBackendMessage::get_auth_message_kind` — when the kind is `R`,
`copy_from_slice(&self.raw_body[0..4])` panics if the body holds fewer
than 4 bytes. -/
def RawBackendMessage.get_auth_message_kind (m : RawBackendMessage) :
    PanicOr (Option AuthenticationMessageKind) :=
  match m.get_message_kind with
  | some .Authentication =>
    if m.raw_body.length < 4 then .panics
    else .ret (AuthenticationMessageKind.try_from
                 (toSigned32 (be_of (m.raw_body.take 4)))).toOption
  | _ => .ret none

/-- Source `RawFrontendMessage` — same envelope, frontend direction. -/
structure RawFrontendMessage where
  header : MessageHeader
  raw_body : List Nat
  deriving DecidableEq, Repr

/-- Source `RawFrontendMessage::get` — read 1 kind byte and a 4-byte length,
then `length - 4` bytes of body; a negative body length makes
`vec![0; (length - 4) as usize]` panic on capacity overflow. -/
def RawFrontendMessage.get (input : List Nat) :
    PanicOr (Except Err (RawFrontendMessage × List Nat)) :=
  match u8_deserialize input with
  | .error e => .ret (.error e)
  | .ok (message_type, r1) =>
    match i32_deserialize r1 with
    | .error e => .ret (.error e)
    | .ok (len, rest) =>
      if len < 4 then .panics
      else if rest.length < (len - 4).toNat then .ret (.error .underflow)
      else
        .ret (.ok ({ header := { message_type, length := len },
                     raw_body := rest.take (len - 4).toNat },
                   rest.drop (len - 4).toNat))

/-- Source `RawRequest` — the startup-phase envelope: length, request kind and
the raw body (which still contains the request-code bytes). -/
structure RawRequest where
  length : Int
  request_kind : RequestMessageKind
  raw_body : List Nat
  deriving DecidableEq, Repr

/-- Source `RawRequest::get` — read a 4-byte length, then `length - 4` bytes of
body; `msg_kind.copy_from_slice(&raw_body[0..4])` panics when the body is
shorter than 4 bytes, and a negative body length panics in
`vec![0; (length - 4) as usize]`. -/
def RawRequest.get (input : List Nat) :
    PanicOr (Except Err (RawRequest × List Nat)) :=
  match i32_deserialize input with
  | .error e => .ret (.error e)
  | .ok (len, rest) =>
    if len < 4 then .panics
    else if rest.length < (len - 4).toNat then .ret (.error .underflow)
    else
      let raw_body := rest.take (len - 4).toNat
      if raw_body.length < 4 then .panics
      else
        match RequestMessageKind.try_from (toSigned32 (be_of (raw_body.take 4))) with
        | .error e => .ret (.error e)
        | .ok k =>
          .ret (.ok ({ length := len, request_kind := k, raw_body },
                     rest.drop (len - 4).toNat))

/-- Source `impl TryFrom<&mut RawRequest> for StartupMessage`. -/
def StartupMessage.try_from (req : RawRequest) : Except Err StartupMessage :=
  match req.request_kind with
  | .StartupMessage =>
    match StartupMessage.deserialize req.raw_body with
    | .ok (sm, _) => .ok sm
    | .error e => .error e
  | _ => .error .unexpectedMessage

/-- Derived `TryFrom<&mut RawFrontendMessage> for PasswordMessage` —
check the kind byte `p` then deserialize the body. -/
def PasswordMessage.try_from (raw : RawFrontendMessage) : Except Err PasswordMessage :=
  if raw.header.message_type = 112 then
    match PasswordMessage.deserialize raw.raw_body with
    | .ok (pm, _) => .ok pm
    | .error e => .error e
  else .error .unexpectedMessage

/-- Derived `TryFrom<&mut RawFrontendMessage> for Query` — check the kind
byte `Q` then deserialize the body. -/
def Query.try_from (raw : RawFrontendMessage) : Except Err Query :=
  if raw.header.message_type = 81 then
    match Query.deserialize raw.raw_body with
    | .ok (q, _) => .ok q
    | .error e => .error e
  else .error .unexpectedMessage

/-! ### Frames written by `LibPqWriter::put_message`
(`MessageHeader::new_raw_header_from_body` then the body). -/

/-- Source `put_message` buffer layout: the kind byte, `byte_size + 4` as a
big-endian `i32`, then the serialized body. -/
def message_frame (kind : Nat) (sz : Int) (body : List Nat) : List Nat :=
  kind :: (i32_serialize (sz + 4) ++ body)

def AuthenticationOk.frame (m : AuthenticationOk) : List Nat :=
  message_frame 82 m.byte_size m.serialize

def AuthenticationMD5Password.frame (m : AuthenticationMD5Password) : List Nat :=
  message_frame 82 m.byte_size m.serialize

def ParameterStatus.frame (m : ParameterStatus) : List Nat :=
  message_frame 83 m.byte_size m.serialize

def ReadyForQuery.frame (m : ReadyForQuery) : List Nat :=
  message_frame 90 m.byte_size m.serialize

def ErrorResponse.frame (m : ErrorResponse) : List Nat :=
  message_frame 69 m.byte_size m.serialize

def RowDescription.frame (m : RowDescription) : List Nat :=
  message_frame 84 m.byte_size m.serialize

def DataRow.frame (m : DataRow) : List Nat :=
  message_frame 68 m.byte_size m.serialize

def CommandComplete.frame (m : CommandComplete) : List Nat :=
  message_frame 67 m.byte_size m.serialize

/-! ### UTF-8 validation (`CString::into_string` in
`simple_query_handler`) -/

/-- A UTF-8 continuation byte (`0x80..=0xBF`). -/
def isContByte (b : Nat) : Bool := 128 ≤ b && b ≤ 191

/-- Standard UTF-8 well-formedness of a byte sequence, as checked by
`CString::into_string`. -/
def isValidUtf8 : List Nat → Bool
  | [] => true
  | b :: rest =>
    if b ≤ 127 then isValidUtf8 rest
    else if 194 ≤ b && b ≤ 223 then
      match rest with
      | c1 :: r => isContByte c1 && isValidUtf8 r
      | [] => false
    else if b = 224 then
      match rest with
      | c1 :: c2 :: r => (160 ≤ c1 && c1 ≤ 191) && isContByte c2 && isValidUtf8 r
      | _ => false
    else if (225 ≤ b && b ≤ 236) || b = 238 || b = 239 then
      match rest with
      | c1 :: c2 :: r => isContByte c1 && isContByte c2 && isValidUtf8 r
      | _ => false
    else if b = 237 then
      match rest with
      | c1 :: c2 :: r => (128 ≤ c1 && c1 ≤ 159) && isContByte c2 && isValidUtf8 r
      | _ => false
    else if b = 240 then
      match rest with
      | c1 :: c2 :: c3 :: r =>
          (144 ≤ c1 && c1 ≤ 191) && isContByte c2 && isContByte c3 && isValidUtf8 r
      | _ => false
    else if 241 ≤ b && b ≤ 243 then
      match rest with
      | c1 :: c2 :: c3 :: r =>
          isContByte c1 && isContByte c2 && isContByte c3 && isValidUtf8 r
      | _ => false
    else if b = 244 then
      match rest with
      | c1 :: c2 :: c3 :: r =>
          (128 ≤ c1 && c1 ≤ 143) && isContByte c2 && isContByte c3 && isValidUtf8 r
      | _ => false
    else false

/-- Source `CString::into_string` — succeeds exactly on valid UTF-8 payloads. -/
def into_string (s : List Nat) : Except Err (List Nat) :=
  if isValidUtf8 s then .ok s else .error .notUtf8

/-! ### Backend handlers (`src/handler/server.rs`)

The handlers are functions of the client's input byte stream; the frames
written through `put_message` are collected in order.  The opaque
`auth_function` collaborator is a boolean, the opaque `executor`
collaborator a function argument. -/

/-- The constant `ParameterStatus` the server reports after a successful
authentication. -/
def server_version_status : ParameterStatus :=
  { name := ['s','e','r','v','e','r','_','v','e','r','s','i','o','n'].map Char.toNat,
    value := ['0','.','1',' ','(','f','a','k','e','p','o','s','t','m','a','s','t','e','r',')'].map Char.toNat }

/-- The `ErrorMessage` sent on authentication failure: code `'M'` (77)
and the text `Incorrect password or user`. -/
def incorrect_password_message : ErrorMessage :=
  { code := 77,
    message := ['I','n','c','o','r','r','e','c','t',' ','p','a','s','s','w','o','r','d',
                ' ','o','r',' ','u','s','e','r'].map Char.toNat }

/-- Source `TcpHandler::md5_authentication_handler` (server side): parse the
startup request, send `AuthenticationMD5Password` with the hard-coded
salt `[1,2,3,4]`, parse the `PasswordMessage`, then either complete the
handshake (`AuthenticationOk`, `ParameterStatus`, `ReadyForQuery('I')`)
or send the failure `ErrorResponse` and return an error. -/
def md5_authentication_handler (input : List Nat) (auth_function : Bool) :
    PanicOr (List (List Nat) × Except Err (List ParameterStatus)) :=
  match RawRequest.get input with
  | .panics => .panics
  | .ret (.error e) => .ret ([], .error e)
  | .ret (.ok (req, rest)) =>
    match StartupMessage.try_from req with
    | .error e => .ret ([], .error e)
    | .ok sm =>
      let sent := [(AuthenticationMD5Password.new [1, 2, 3, 4]).frame]
      match RawFrontendMessage.get rest with
      | .panics => .panics
      | .ret (.error e) => .ret (sent, .error e)
      | .ret (.ok (raw, _)) =>
        match PasswordMessage.try_from raw with
        | .error _ => .ret (sent, .error .passwordExpected)
        | .ok _ =>
          if auth_function then
            .ret (sent ++ [AuthenticationOk.new.frame,
                           server_version_status.frame,
                           ReadyForQuery.frame { transaction_indicator := 73 }],
                  .ok sm.parameters)
          else
            .ret (sent ++ [ErrorResponse.frame { messages := [incorrect_password_message] }],
                  .error .authFailed)

/-- Source `TcpHandler::simple_query_handler` (server side): parse the `Query`
frame, run the executor, then send `RowDescription`, at most one
`DataRow` (only when the executor's row data is non-empty),
`CommandComplete` and `ReadyForQuery('I')`. -/
def simple_query_handler (input : List Nat)
    (executor : List Nat → List ColumnDescription × List (List Nat) × List Nat) :
    PanicOr (List (List Nat) × Except Err Unit) :=
  match RawFrontendMessage.get input with
  | .panics => .panics
  | .ret (.error e) => .ret ([], .error e)
  | .ret (.ok (raw, _)) =>
    match Query.try_from raw with
    | .error _ => .ret ([], .error .queryExpected)
    | .ok q =>
      match into_string q.query with
      | .error e => .ret ([], .error e)
      | .ok query_text =>
        let (column_desc, column_data, command_tag) := executor query_text
        let sent := [RowDescription.frame { columns := column_desc }]
        let sent :=
          if 0 < column_data.length then
            sent ++ [DataRow.frame { columns := column_data }]
          else sent
        match CommandComplete.new command_tag with
        | .error e => .ret (sent, .error e)
        | .ok cc =>
          .ret (sent ++ [cc.frame, ReadyForQuery.frame { transaction_indicator := 73 }],
                .ok ())

/-! ### Hand-rolled composers (`src/main.rs` and `src/backend.rs`) -/

/-- Source `BackendMessage::compose_command_complete` from `src/main.rs`: writes
`command_tag.len() as i32 + 4` as the length, then the tag as a
C string. -/
def main_compose_command_complete (command_tag : List Nat) : List Nat :=
  67 :: (i32_serialize (i32cast command_tag.length + 4) ++ command_tag ++ [0])

/-- Source `BackendMessage::compose_command_complete` from `src/backend.rs`:
writes `command_tag.len() as i32 + 1 + 4` as the length, then the tag as
a C string. -/
def backend_compose_command_complete (command_tag : List Nat) : List Nat :=
  67 :: (i32_serialize (i32cast command_tag.length + 1 + 4) ++ command_tag ++ [0])

/-- Source `BackendMessage::compose_authentication_md5_password`, identical in
`src/main.rs` and `src/backend.rs`: both are called with the hard-coded
salt `[1,2,3,4]`. -/
def compose_authentication_md5_password (salt : List Nat) : List Nat :=
  82 :: (i32_serialize 12 ++ i32_serialize 5 ++ salt)

/-! ### MD5 password hashing (`PasswordMessage::new_from_user_password`)

The MD5 compression function itself lives in the external `md5` crate and
is abstracted as a function argument; the embedding captures how the
source composes it. -/

/-- One byte of `format!("{hash:x}")`: two lowercase hex digits. -/
def hex_digit (n : Nat) : Nat := if n < 10 then 48 + n else 87 + n

/-- Source `format!("{hash:x}")` over an MD5 digest: each digest byte printed as
two lowercase hex digits. -/
def format_lower_hex (digest : List Nat) : List Nat :=
  serialize_all (fun b => [hex_digit (b / 16), hex_digit (b % 16)]) digest

/-- The ASCII bytes of the literal `md5` in `format!("md5{hash:x}")`. -/
def md5_tag : List Nat := [109, 100, 53]

/-- Source `PasswordMessage::new_from_user_password`: hash `password ++ user`,
hex-format the digest, hash that hex string followed by the salt, and
prepend `md5` to the hex form of the second digest. -/
def new_from_user_password (md5 : List Nat → List Nat)
    (user password salt : List Nat) : List Nat :=
  let hash := md5 (password ++ user)
  let hash2 := md5 (format_lower_hex hash ++ salt)
  md5_tag ++ format_lower_hex hash2

/-! ### Well-formed client frames (test harness)

These build the byte streams a conforming frontend sends, used as
concrete inputs to the handler models. -/

/-- The body of a protocol-3.0 startup request: the request code
`196608`, the serialized parameter pairs, and the `VecNull`
terminator. -/
def startup_body_bytes (params : List ParameterStatus) : List Nat :=
  [0, 3, 0, 0] ++ (serialize_all ParameterStatus.serialize params ++ [0])

/-- A correctly framed startup request carrying protocol 3.0 and the
given parameters (as sent by `put_request`). -/
def startup_frame_bytes (params : List ParameterStatus) : List Nat :=
  i32_serialize (((startup_body_bytes params).length : Int) + 4) ++ startup_body_bytes params

/-- A correctly framed `PasswordMessage` (kind `p`) with payload `pw`. -/
def password_frame_bytes (pw : List Nat) : List Nat :=
  let body := pw ++ [0]
  112 :: (i32_serialize ((body.length : Int) + 4) ++ body)

/-- A correctly framed `Query` (kind `Q`) with payload `q`. -/
def query_frame_bytes (q : List Nat) : List Nat :=
  let body := q ++ [0]
  81 :: (i32_serialize ((body.length : Int) + 4) ++ body)

/-- The Rust `i16` range, the invariant of every `i16` field. -/
def Int16Range (x : Int) : Prop := -32768 ≤ x ∧ x < 32768

/-- The Rust `i32` range, the invariant of every `i32` field. -/
def Int32Range (x : Int) : Prop := -2147483648 ≤ x ∧ x < 2147483648

instance (x : Int) : Decidable (Int16Range x) := by
  unfold Int16Range; infer_instance

instance (x : Int) : Decidable (Int32Range x) := by
  unfold Int32Range; infer_instance

/-- A deserializer that consumes at least one byte whenever it succeeds;
every deserializer of this library has this property, and it is what
makes the `VecNull::deserialize` loop terminate. -/
def Consumes (d : DesFun α) : Prop :=
  ∀ buf x rest, d buf = .ok (x, rest) → rest.length < buf.length

/-- The `SELECT 1` command tag from the captured-traffic tests. -/
def select1_tag : List Nat :=
  ['S','E','L','E','C','T',' ','1'].map Char.toNat

/-- A concrete well-formed client stream: empty-parameter startup then a
password message with payload `x`. -/
def demo_auth_input : List Nat :=
  startup_frame_bytes [] ++ password_frame_bytes [120]

/-- The frames the server sends on `demo_auth_input` when the predicate
rejects. -/
def demo_auth_sent : List (List Nat) :=
  [(AuthenticationMD5Password.new [1, 2, 3, 4]).frame,
   ErrorResponse.frame { messages := [incorrect_password_message] }]

/-! ## Lemmas about the primitive codec -/

theorem take_append_len (l₁ l₂ : List α) : (l₁ ++ l₂).take l₁.length = l₁ := by
  induction l₁ with
  | nil => simp
  | cons x xs ih => simp [ih]

theorem drop_append_len (l₁ l₂ : List α) : (l₁ ++ l₂).drop l₁.length = l₂ := by
  induction l₁ with
  | nil => simp
  | cons x xs ih => simp [ih]

theorem toSigned16_toNat_emod (x : Int) (h1 : -32768 ≤ x) (h2 : x < 32768) :
    toSigned16 (x % 65536).toNat = x := by
  unfold toSigned16
  split <;> omega

theorem toSigned32_toNat_emod (x : Int) (h1 : -2147483648 ≤ x) (h2 : x < 2147483648) :
    toSigned32 (x % 4294967296).toNat = x := by
  unfold toSigned32
  split <;> omega

/-- Source `put_i16` then `try_get_i16` restores any in-range value and leaves
the rest of the buffer untouched. -/
theorem i16_round (x : Int) (rest : List Nat)
    (h1 : -32768 ≤ x) (h2 : x < 32768) :
    i16_deserialize (i16_serialize x ++ rest) = .ok (x, rest) := by
  have hn : (x % 65536).toNat / 256 * 256 + (x % 65536).toNat % 256
      = (x % 65536).toNat := by omega
  simp only [i16_serialize, List.cons_append, List.nil_append, i16_deserialize, hn,
    toSigned16_toNat_emod x h1 h2]

/-- Source `put_i32` then `try_get_i32` restores any in-range value and leaves
the rest of the buffer untouched. -/
theorem i32_round (x : Int) (rest : List Nat)
    (h1 : -2147483648 ≤ x) (h2 : x < 2147483648) :
    i32_deserialize (i32_serialize x ++ rest) = .ok (x, rest) := by
  have hn : (((x % 4294967296).toNat / 16777216 * 256
        + (x % 4294967296).toNat / 65536 % 256) * 256
        + (x % 4294967296).toNat / 256 % 256) * 256
        + (x % 4294967296).toNat % 256
      = (x % 4294967296).toNat := by omega
  simp only [i32_serialize, List.cons_append, List.nil_append, i32_deserialize, hn,
    toSigned32_toNat_emod x h1 h2]

/-- Source `u8` round trip. -/
theorem u8_round (b : Nat) (rest : List Nat) :
    u8_deserialize (u8_serialize b ++ rest) = .ok (b, rest) := rfl

/-- Source `u8_deserialize` consumes exactly one byte on success. -/
theorem u8_consumes : Consumes u8_deserialize := by
  intro buf x rest h
  cases buf with
  | nil => simp [u8_deserialize] at h
  | cons b t =>
    simp only [u8_deserialize, Except.ok.injEq, Prod.mk.injEq] at h
    simp [← h.2]

/-- Source `Byte4` round trip for four-byte payloads. -/
theorem byte4_round (b : List Nat) (rest : List Nat) (h : b.length = 4) :
    byte4_deserialize (byte4_serialize b ++ rest) = .ok (b, rest) := by
  have h4 : 4 ≤ (b ++ rest).length := by simp [h]
  simp only [byte4_serialize, byte4_deserialize, if_pos h4]
  rw [← h, take_append_len, drop_append_len]

/-- C-string round trip: a NUL-free payload is restored and the
terminator is consumed. -/
theorem cstring_round (s : List Nat) (rest : List Nat) (h : 0 ∉ s) :
    cstring_deserialize (cstring_serialize s ++ rest) = .ok (s, rest) := by
  induction s with
  | nil => simp [cstring_serialize, cstring_deserialize]
  | cons b t ih =>
    have hb : b ≠ 0 := by
      rintro rfl
      exact h (List.mem_cons_self 0 t)
    have ht : 0 ∉ t := fun hm => h (List.mem_cons_of_mem b hm)
    have ih2 := ih ht
    simp only [cstring_serialize, List.cons_append, List.append_assoc,
      List.nil_append] at ih2 ⊢
    simp [cstring_deserialize, hb, ih2]

/-- Element-count loop round trip: deserializing exactly the number of
serialized elements restores them. -/
theorem deserialize_count_round (d : DesFun α) (s : α → List Nat)
    (xs : List α) (rest : List Nat)
    (he : ∀ x ∈ xs, ∀ r, d (s x ++ r) = .ok (x, r)) :
    deserialize_count d xs.length (serialize_all s xs ++ rest) = .ok (xs, rest) := by
  induction xs with
  | nil => simp [serialize_all, deserialize_count]
  | cons x t ih =>
    have hx := he x (List.mem_cons_self x t) (serialize_all s t ++ rest)
    have ht : ∀ y ∈ t, ∀ r, d (s y ++ r) = .ok (y, r) :=
      fun y hy => he y (List.mem_cons_of_mem x hy)
    simp only [serialize_all, List.length_cons, List.append_assoc, deserialize_count, hx,
      ih ht]

/-- Source `Vec16` round trip for fewer than 2^15 elements. -/
theorem vec16_round (d : DesFun α) (s : α → List Nat) (xs : List α) (rest : List Nat)
    (hlen : xs.length < 32768)
    (he : ∀ x ∈ xs, ∀ r, d (s x ++ r) = .ok (x, r)) :
    vec16_deserialize d (vec16_serialize s xs ++ rest) = .ok (xs, rest) := by
  unfold vec16_serialize vec16_deserialize
  rw [List.append_assoc,
    i16_round (xs.length : Int) _ (by omega) (by exact_mod_cast hlen)]
  simp only [Int.toNat_natCast]
  exact deserialize_count_round d s xs rest he

/-- Source `Vec32` round trip for fewer than 2^31 elements. -/
theorem vec32_round (d : DesFun α) (s : α → List Nat) (xs : List α) (rest : List Nat)
    (hlen : xs.length < 2147483648)
    (he : ∀ x ∈ xs, ∀ r, d (s x ++ r) = .ok (x, r)) :
    vec32_deserialize d (vec32_serialize s xs ++ rest) = .ok (xs, rest) := by
  unfold vec32_serialize vec32_deserialize
  rw [List.append_assoc,
    i32_round (xs.length : Int) _ (by omega) (by exact_mod_cast hlen)]
  simp only [Int.toNat_natCast]
  exact deserialize_count_round d s xs rest he

/-- Serializing a list of elements with non-empty encodings produces at
least one byte per element. -/
theorem length_serialize_all_ge (s : α → List Nat) (xs : List α)
    (hne : ∀ x ∈ xs, s x ≠ []) :
    xs.length ≤ (serialize_all s xs).length := by
  induction xs with
  | nil => simp [serialize_all]
  | cons x t ih =>
    have h1 : 1 ≤ (s x).length := by
      have hx := hne x (List.mem_cons_self x t)
      cases hsx : s x with
      | nil => exact absurd hsx hx
      | cons a b => simp
    have h2 := ih (fun y hy => hne y (List.mem_cons_of_mem x hy))
    simp only [serialize_all, List.length_cons, List.length_append]
    omega

/-- Completeness of the `VecNull::deserialize` loop on exactly the bytes
`VecNull::serialize` produced, with any sufficient fuel. -/
theorem vec_null_go_complete (d : DesFun α) (s : α → List Nat) (xs : List α) :
    ∀ fuel, (∀ x ∈ xs, ∀ r, d (s x ++ r) = .ok (x, r)) →
    (∀ x ∈ xs, s x ≠ []) → xs.length < fuel →
    vec_null_go d fuel (serialize_all s xs ++ [0]) = .ok (xs, []) := by
  induction xs with
  | nil =>
    intro fuel _ _ hf
    obtain ⟨f, rfl⟩ : ∃ f, fuel = f + 1 := ⟨fuel - 1, by omega⟩
    simp [serialize_all, vec_null_go]
  | cons x t ih =>
    intro fuel he hne hf
    obtain ⟨f, rfl⟩ : ∃ f, fuel = f + 1 := ⟨fuel - 1, by omega⟩
    have hx1 : 1 ≤ (s x).length := by
      have hx := hne x (List.mem_cons_self x t)
      cases hsx : s x with
      | nil => exact absurd hsx hx
      | cons a b => simp
    have hlen : 2 ≤ (serialize_all s (x :: t) ++ [0]).length := by
      simp only [serialize_all, List.length_append, List.length_cons]
      omega
    have hd := he x (List.mem_cons_self x t) (serialize_all s t ++ [0])
    have hrec := ih f (fun y hy => he y (List.mem_cons_of_mem x hy))
      (fun y hy => hne y (List.mem_cons_of_mem x hy)) (by simp at hf; omega)
    simp only [serialize_all, List.append_assoc] at hlen ⊢
    rw [vec_null_go]
    rw [if_neg (by omega), if_neg (by omega)]
    simp only [hd, hrec]

/-- Source `VecNull` round trip: NUL-terminated element lists are restored and
the buffer is fully consumed. -/
theorem vec_null_round (d : DesFun α) (s : α → List Nat) (xs : List α)
    (he : ∀ x ∈ xs, ∀ r, d (s x ++ r) = .ok (x, r))
    (hne : ∀ x ∈ xs, s x ≠ []) :
    vec_null_deserialize d (vec_null_serialize s xs) = .ok (xs, []) := by
  unfold vec_null_deserialize vec_null_serialize
  exact vec_null_go_complete d s xs _ he hne
    (by have := length_serialize_all_ge s xs hne; simp; omega)

/-! ## Per-message round trips -/

theorem auth_ok_round (m : AuthenticationOk) (rest : List Nat)
    (h : Int32Range m.code) :
    AuthenticationOk.deserialize (AuthenticationOk.serialize m ++ rest) = .ok (m, rest) := by
  simp only [AuthenticationOk.serialize, AuthenticationOk.deserialize,
    i32_round _ _ h.1 h.2]

theorem md5_password_round (m : AuthenticationMD5Password) (rest : List Nat)
    (h : Int32Range m.code) (hs : m.salt.length = 4) :
    AuthenticationMD5Password.deserialize (AuthenticationMD5Password.serialize m ++ rest)
      = .ok (m, rest) := by
  simp only [AuthenticationMD5Password.serialize, AuthenticationMD5Password.deserialize,
    List.append_assoc, i32_round _ _ h.1 h.2, byte4_round _ _ hs]

theorem backend_key_data_round (m : BackendKeyData) (rest : List Nat)
    (h1 : Int32Range m.process_id) (h2 : Int32Range m.secret_key) :
    BackendKeyData.deserialize (BackendKeyData.serialize m ++ rest) = .ok (m, rest) := by
  simp only [BackendKeyData.serialize, BackendKeyData.deserialize, List.append_assoc,
    i32_round _ _ h1.1 h1.2, i32_round _ _ h2.1 h2.2]

theorem command_complete_round (m : CommandComplete) (rest : List Nat)
    (h : 0 ∉ m.command_tag) :
    CommandComplete.deserialize (CommandComplete.serialize m ++ rest) = .ok (m, rest) := by
  simp only [CommandComplete.serialize, CommandComplete.deserialize, cstring_round _ _ h]

theorem column_data_round (col : List Nat) (rest : List Nat)
    (h : col.length < 2147483648) :
    column_data_deserialize (column_data_serialize col ++ rest) = .ok (col, rest) := by
  unfold column_data_serialize column_data_deserialize
  exact vec32_round _ _ col rest h (fun b _ r => u8_round b r)

theorem data_row_round (m : DataRow) (rest : List Nat)
    (h1 : m.columns.length < 32768)
    (h2 : ∀ col ∈ m.columns, col.length < 2147483648) :
    DataRow.deserialize (DataRow.serialize m ++ rest) = .ok (m, rest) := by
  have hv := vec16_round column_data_deserialize column_data_serialize m.columns rest h1
    (fun col hc r => column_data_round col r (h2 col hc))
  simp only [DataRow.serialize, DataRow.deserialize, hv]

theorem error_message_round (m : ErrorMessage) (rest : List Nat)
    (h : 0 ∉ m.message) :
    ErrorMessage.deserialize (ErrorMessage.serialize m ++ rest) = .ok (m, rest) := by
  simp only [ErrorMessage.serialize, ErrorMessage.deserialize, u8_serialize,
    List.append_assoc, List.cons_append, List.nil_append, u8_deserialize,
    cstring_round _ _ h]

theorem error_message_serialize_ne (m : ErrorMessage) :
    ErrorMessage.serialize m ≠ [] := by
  simp [ErrorMessage.serialize, u8_serialize]

theorem error_response_round (m : ErrorResponse)
    (h : ∀ em ∈ m.messages, 0 ∉ em.message) :
    ErrorResponse.deserialize (ErrorResponse.serialize m) = .ok (m, []) := by
  have hv := vec_null_round ErrorMessage.deserialize ErrorMessage.serialize m.messages
    (fun em he r => error_message_round em r (h em he))
    (fun em _ => error_message_serialize_ne em)
  simp only [ErrorResponse.serialize, ErrorResponse.deserialize, hv]

theorem parameter_status_round (p : ParameterStatus) (rest : List Nat)
    (h1 : 0 ∉ p.name) (h2 : 0 ∉ p.value) :
    ParameterStatus.deserialize (ParameterStatus.serialize p ++ rest) = .ok (p, rest) := by
  simp only [ParameterStatus.serialize, ParameterStatus.deserialize, List.append_assoc,
    cstring_round _ _ h1, cstring_round _ _ h2]

theorem parameter_status_serialize_ne (p : ParameterStatus) :
    ParameterStatus.serialize p ≠ [] := by
  simp [ParameterStatus.serialize, cstring_serialize]

theorem password_message_round (m : PasswordMessage) (rest : List Nat)
    (h : 0 ∉ m.password) :
    PasswordMessage.deserialize (PasswordMessage.serialize m ++ rest) = .ok (m, rest) := by
  simp only [PasswordMessage.serialize, PasswordMessage.deserialize, cstring_round _ _ h]

theorem query_round (m : Query) (rest : List Nat) (h : 0 ∉ m.query) :
    Query.deserialize (Query.serialize m ++ rest) = .ok (m, rest) := by
  simp only [Query.serialize, Query.deserialize, cstring_round _ _ h]

theorem ready_for_query_round (m : ReadyForQuery) (rest : List Nat) :
    ReadyForQuery.deserialize (ReadyForQuery.serialize m ++ rest) = .ok (m, rest) := by
  simp only [ReadyForQuery.serialize, ReadyForQuery.deserialize, u8_serialize,
    List.cons_append, List.nil_append, u8_deserialize]

theorem column_description_round (c : ColumnDescription) (rest : List Nat)
    (h1 : 0 ∉ c.name)
    (h2 : Int32Range c.relation_id) (h3 : Int16Range c.attribute_id)
    (h4 : Int32Range c.datatype_id) (h5 : Int16Range c.datatype_len)
    (h6 : Int32Range c.datatype_mod) (h7 : Int16Range c.format) :
    ColumnDescription.deserialize (ColumnDescription.serialize c ++ rest) = .ok (c, rest) := by
  simp only [ColumnDescription.serialize, ColumnDescription.deserialize, List.append_assoc,
    cstring_round _ _ h1, i32_round _ _ h2.1 h2.2, i16_round _ _ h3.1 h3.2,
    i32_round _ _ h4.1 h4.2, i16_round _ _ h5.1 h5.2, i32_round _ _ h6.1 h6.2,
    i16_round _ _ h7.1 h7.2]

theorem row_description_round (m : RowDescription) (rest : List Nat)
    (h1 : m.columns.length < 32768)
    (h2 : ∀ c ∈ m.columns, 0 ∉ c.name ∧ Int32Range c.relation_id ∧
      Int16Range c.attribute_id ∧ Int32Range c.datatype_id ∧
      Int16Range c.datatype_len ∧ Int32Range c.datatype_mod ∧ Int16Range c.format) :
    RowDescription.deserialize (RowDescription.serialize m ++ rest) = .ok (m, rest) := by
  have hv := vec16_round ColumnDescription.deserialize ColumnDescription.serialize
    m.columns rest h1
    (fun c hc r => by
      obtain ⟨a1, a2, a3, a4, a5, a6, a7⟩ := h2 c hc
      exact column_description_round c r a1 a2 a3 a4 a5 a6 a7)
  simp only [RowDescription.serialize, RowDescription.deserialize, hv]

theorem ps_vec_null_round (params : List ParameterStatus)
    (hp : ∀ p ∈ params, 0 ∉ p.name ∧ 0 ∉ p.value) :
    vec_null_deserialize ParameterStatus.deserialize
      (serialize_all ParameterStatus.serialize params ++ [0]) = .ok (params, []) := by
  have hv := vec_null_round ParameterStatus.deserialize ParameterStatus.serialize params
    (fun p hm r => parameter_status_round p r (hp p hm).1 (hp p hm).2)
    (fun p _ => parameter_status_serialize_ne p)
  simpa [vec_null_serialize] using hv

theorem startup_message_round (m : StartupMessage)
    (h1 : Int16Range m.protocol_version.major)
    (h2 : Int16Range m.protocol_version.minor)
    (hp : ∀ p ∈ m.parameters, 0 ∉ p.name ∧ 0 ∉ p.value) :
    StartupMessage.deserialize (StartupMessage.serialize m) = .ok (m, []) := by
  have hv := ps_vec_null_round m.parameters hp
  simp only [StartupMessage.serialize, StartupMessage.deserialize, List.append_assoc,
    vec_null_serialize, i16_round _ _ h1.1 h1.2, i16_round _ _ h2.1 h2.2, hv]

/-! ## Claim C1 — serialize/deserialize round trip -/

/-- C1 (corrected): for each of the twelve typed message kinds,
deserializing the bytes produced by serializing the message restores it
(and consumes the whole buffer) — provided every `Vec16`-encoded field
has fewer than 2^15 elements and every `Vec32`-encoded field fewer than
2^31 elements.  The remaining hypotheses (integer fields in their Rust
`i16`/`i32` ranges, C strings NUL-free, salts of four bytes) restate the
invariants of the Rust field types in this embedding.  The element-count
bounds are genuinely needed: the `len as i16` / `len as i32` casts in
`Vec16::serialize` / `Vec32::serialize` wrap, see the counterexample. -/
theorem claim1_round_trip :
    (∀ m : AuthenticationOk, Int32Range m.code →
      AuthenticationOk.deserialize (AuthenticationOk.serialize m) = .ok (m, []))
    ∧ (∀ m : AuthenticationMD5Password, Int32Range m.code → m.salt.length = 4 →
      AuthenticationMD5Password.deserialize (AuthenticationMD5Password.serialize m)
        = .ok (m, []))
    ∧ (∀ m : BackendKeyData, Int32Range m.process_id → Int32Range m.secret_key →
      BackendKeyData.deserialize (BackendKeyData.serialize m) = .ok (m, []))
    ∧ (∀ m : CommandComplete, 0 ∉ m.command_tag →
      CommandComplete.deserialize (CommandComplete.serialize m) = .ok (m, []))
    ∧ (∀ m : DataRow, m.columns.length < 32768 →
        (∀ col ∈ m.columns, col.length < 2147483648) →
      DataRow.deserialize (DataRow.serialize m) = .ok (m, []))
    ∧ (∀ m : ErrorResponse, (∀ em ∈ m.messages, 0 ∉ em.message) →
      ErrorResponse.deserialize (ErrorResponse.serialize m) = .ok (m, []))
    ∧ (∀ m : ParameterStatus, 0 ∉ m.name → 0 ∉ m.value →
      ParameterStatus.deserialize (ParameterStatus.serialize m) = .ok (m, []))
    ∧ (∀ m : PasswordMessage, 0 ∉ m.password →
      PasswordMessage.deserialize (PasswordMessage.serialize m) = .ok (m, []))
    ∧ (∀ m : Query, 0 ∉ m.query →
      Query.deserialize (Query.serialize m) = .ok (m, []))
    ∧ (∀ m : ReadyForQuery,
      ReadyForQuery.deserialize (ReadyForQuery.serialize m) = .ok (m, []))
    ∧ (∀ m : RowDescription, m.columns.length < 32768 →
        (∀ c ∈ m.columns, 0 ∉ c.name ∧ Int32Range c.relation_id ∧
          Int16Range c.attribute_id ∧ Int32Range c.datatype_id ∧
          Int16Range c.datatype_len ∧ Int32Range c.datatype_mod ∧
          Int16Range c.format) →
      RowDescription.deserialize (RowDescription.serialize m) = .ok (m, []))
    ∧ (∀ m : StartupMessage, Int16Range m.protocol_version.major →
        Int16Range m.protocol_version.minor →
        (∀ p ∈ m.parameters, 0 ∉ p.name ∧ 0 ∉ p.value) →
      StartupMessage.deserialize (StartupMessage.serialize m) = .ok (m, [])) := by
  refine ⟨?_, ?_, ?_, ?_, ?_, ?_, ?_, ?_, ?_, ?_, ?_, ?_⟩
  · intro m h; simpa using auth_ok_round m [] h
  · intro m h hs; simpa using md5_password_round m [] h hs
  · intro m h1 h2; simpa using backend_key_data_round m [] h1 h2
  · intro m h; simpa using command_complete_round m [] h
  · intro m h1 h2; simpa using data_row_round m [] h1 h2
  · intro m h; exact error_response_round m h
  · intro m h1 h2; simpa using parameter_status_round m [] h1 h2
  · intro m h; simpa using password_message_round m [] h
  · intro m h; simpa using query_round m [] h
  · intro m; simpa using ready_for_query_round m []
  · intro m h1 h2; simpa using row_description_round m [] h1 h2
  · intro m h1 h2 hp; exact startup_message_round m h1 h2 hp

/-- Witness for C1: the round trip evaluated on one concrete message of
each of the twelve kinds. -/
theorem claim1_round_trip_witness :
    AuthenticationOk.deserialize (AuthenticationOk.serialize { code := 0 })
      = .ok ({ code := 0 }, [])
    ∧ AuthenticationMD5Password.deserialize
        (AuthenticationMD5Password.serialize { code := 5, salt := [1, 2, 3, 4] })
      = .ok ({ code := 5, salt := [1, 2, 3, 4] }, [])
    ∧ BackendKeyData.deserialize (BackendKeyData.serialize { process_id := 7, secret_key := 9 })
      = .ok ({ process_id := 7, secret_key := 9 }, [])
    ∧ CommandComplete.deserialize (CommandComplete.serialize { command_tag := [83] })
      = .ok ({ command_tag := [83] }, [])
    ∧ DataRow.deserialize (DataRow.serialize { columns := [[49]] })
      = .ok ({ columns := [[49]] }, [])
    ∧ ErrorResponse.deserialize
        (ErrorResponse.serialize { messages := [{ code := 77, message := [65] }] })
      = .ok ({ messages := [{ code := 77, message := [65] }] }, [])
    ∧ ParameterStatus.deserialize (ParameterStatus.serialize { name := [97], value := [98] })
      = .ok ({ name := [97], value := [98] }, [])
    ∧ PasswordMessage.deserialize (PasswordMessage.serialize { password := [120] })
      = .ok ({ password := [120] }, [])
    ∧ Query.deserialize (Query.serialize { query := [81] })
      = .ok ({ query := [81] }, [])
    ∧ ReadyForQuery.deserialize (ReadyForQuery.serialize { transaction_indicator := 73 })
      = .ok ({ transaction_indicator := 73 }, [])
    ∧ RowDescription.deserialize (RowDescription.serialize
        { columns := [{ name := [99], relation_id := 0, attribute_id := 1,
                        datatype_id := 25, datatype_len := -1, datatype_mod := -1,
                        format := 0 }] })
      = .ok ({ columns := [{ name := [99], relation_id := 0, attribute_id := 1,
                             datatype_id := 25, datatype_len := -1, datatype_mod := -1,
                             format := 0 }] }, [])
    ∧ StartupMessage.deserialize (StartupMessage.serialize
        { protocol_version := { major := 3, minor := 0 },
          parameters := [{ name := [117], value := [118] }] })
      = .ok ({ protocol_version := { major := 3, minor := 0 },
               parameters := [{ name := [117], value := [118] }] }, []) :=
  ⟨claim1_round_trip.1 _ (by decide),
   claim1_round_trip.2.1 _ (by decide) (by decide),
   claim1_round_trip.2.2.1 _ (by decide) (by decide),
   claim1_round_trip.2.2.2.1 _ (by decide),
   claim1_round_trip.2.2.2.2.1 _ (by decide) (by decide),
   claim1_round_trip.2.2.2.2.2.1 _ (by decide),
   claim1_round_trip.2.2.2.2.2.2.1 _ (by decide) (by decide),
   claim1_round_trip.2.2.2.2.2.2.2.1 _ (by decide),
   claim1_round_trip.2.2.2.2.2.2.2.2.1 _ (by decide),
   claim1_round_trip.2.2.2.2.2.2.2.2.2.1 _,
   claim1_round_trip.2.2.2.2.2.2.2.2.2.2.1 _ (by decide) (by decide),
   claim1_round_trip.2.2.2.2.2.2.2.2.2.2.2 _ (by decide) (by decide) (by decide)⟩

theorem serialize_all_replicate_nil (n : Nat) :
    serialize_all column_data_serialize (List.replicate n ([] : List Nat))
      = List.replicate (4 * n) 0 := by
  induction n with
  | zero => simp [serialize_all]
  | succ k ih =>
    rw [List.replicate_succ]
    rw [show (4 * (k + 1)) = 4 + 4 * k by omega]
    rw [List.replicate_add]
    simp only [serialize_all, ih]
    rfl

/-- Counterexample for C1 as literally stated: a `DataRow` with 2^15
empty columns does not survive the round trip — the `len as i16` cast in
`Vec16::serialize` wraps to `-32768`, so deserialization reads zero
elements and returns the empty row, leaving the element bytes behind. -/
theorem claim1_counterexample :
    DataRow.deserialize (DataRow.serialize { columns := List.replicate 32768 [] })
      = .ok ({ columns := [] }, List.replicate 131072 0)
    ∧ ({ columns := List.replicate 32768 [] } : DataRow) ≠ { columns := [] } := by
  constructor
  · have hser : DataRow.serialize { columns := List.replicate 32768 [] }
        = 128 :: 0 :: List.replicate 131072 0 := by
      show vec16_serialize column_data_serialize (List.replicate 32768 []) = _
      rw [vec16_serialize, serialize_all_replicate_nil, List.length_replicate]
      rfl
    rw [hser]
    have ht : (toSigned16 (128 * 256 + 0)).toNat = 0 := by decide
    simp only [DataRow.deserialize, vec16_deserialize, i16_deserialize, ht,
      deserialize_count]
  · intro h
    have hc : List.replicate 32768 ([] : List Nat) = [] := congrArg DataRow.columns h
    have hl := congrArg List.length hc
    rw [List.length_replicate, List.length_nil] at hl
    omega

/-! ## Claim C5 — `VecNull::deserialize` loop behaviour -/

/-- One unfolding of the `VecNull::deserialize` loop. -/
theorem vec_null_go_succ (d : DesFun α) (fuel : Nat) (buf : List Nat) :
    vec_null_go d (fuel + 1) buf =
      if buf.length = 1 then
        if buf.headI = 0 then .ok ([], []) else .error .incorrectTerminator
      else if buf.length = 0 then .error .missingNullTerminator
      else
        match d buf with
        | .ok (x, rest) =>
          match vec_null_go d fuel rest with
          | .ok (xs, r) => .ok (x :: xs, r)
          | .error e => .error e
        | .error e => .error e := by
  rw [vec_null_go]

/-- The loop's result does not depend on the fuel, as long as the fuel
exceeds the buffer length and the element deserializer consumes at least
one byte per success. -/
theorem vec_null_go_fuel (d : DesFun α) (hc : Consumes d) :
    ∀ n (buf : List Nat) fuel₁ fuel₂, buf.length ≤ n →
      buf.length < fuel₁ → buf.length < fuel₂ →
      vec_null_go d fuel₁ buf = vec_null_go d fuel₂ buf := by
  intro n
  induction n with
  | zero =>
    intro buf f₁ f₂ hb h1 h2
    obtain ⟨g₁, rfl⟩ : ∃ g, f₁ = g + 1 := ⟨f₁ - 1, by omega⟩
    obtain ⟨g₂, rfl⟩ : ∃ g, f₂ = g + 1 := ⟨f₂ - 1, by omega⟩
    have hb0 : buf.length = 0 := by omega
    rw [vec_null_go_succ, vec_null_go_succ]
    simp [hb0]
  | succ n ih =>
    intro buf f₁ f₂ hb h1 h2
    obtain ⟨g₁, rfl⟩ : ∃ g, f₁ = g + 1 := ⟨f₁ - 1, by omega⟩
    obtain ⟨g₂, rfl⟩ : ∃ g, f₂ = g + 1 := ⟨f₂ - 1, by omega⟩
    rw [vec_null_go_succ, vec_null_go_succ]
    by_cases hb1 : buf.length = 1
    · simp only [if_pos hb1]
    · by_cases hb0 : buf.length = 0
      · simp only [if_neg hb1, if_pos hb0]
      · simp only [if_neg hb1, if_neg hb0]
        cases hd : d buf with
        | error e => rfl
        | ok p =>
          obtain ⟨x, rest⟩ := p
          have hr := hc buf x rest hd
          have hgo := ih rest g₁ g₂ (by omega) (by omega) (by omega)
          simp only [hgo]

/-- C5 (confirmed): `VecNull` deserialization parses an element whenever
more than one byte remains; a final lone byte must be `0x00` (else the
`incorrect terminator` error); an empty buffer yields the
`missing null terminator` error; and consuming the `0x00` returns the
elements parsed so far.  The element deserializer is assumed to consume
at least one byte per success (true of every deserializer of the
library), which is what makes the source loop terminate. -/
theorem claim5_vec_null_deserialize {α : Type} (d : DesFun α) (hc : Consumes d) :
    vec_null_deserialize d [] = .error .missingNullTerminator
    ∧ (∀ b, b ≠ 0 → vec_null_deserialize d [b] = .error .incorrectTerminator)
    ∧ vec_null_deserialize d [0] = .ok ([], [])
    ∧ (∀ buf x rest, 2 ≤ buf.length → d buf = .ok (x, rest) →
        vec_null_deserialize d buf =
          match vec_null_deserialize d rest with
          | .ok (xs, r) => .ok (x :: xs, r)
          | .error e => .error e) := by
  refine ⟨rfl, ?_, rfl, ?_⟩
  · intro b hb
    unfold vec_null_deserialize
    rw [vec_null_go_succ]
    simp [hb]
  · intro buf x rest h2 hd
    have hr := hc buf x rest hd
    have hfe : vec_null_go d buf.length rest = vec_null_go d (rest.length + 1) rest :=
      vec_null_go_fuel d hc rest.length rest buf.length (rest.length + 1)
        le_rfl (by omega) (by omega)
    unfold vec_null_deserialize
    rw [vec_null_go_succ, if_neg (by omega), if_neg (by omega), hd]
    simp only [hfe]

/-- Witness for C5 at the byte deserializer and concrete buffers. -/
theorem claim5_vec_null_deserialize_witness :
    vec_null_deserialize u8_deserialize [] = .error .missingNullTerminator
    ∧ vec_null_deserialize u8_deserialize [7] = .error .incorrectTerminator
    ∧ vec_null_deserialize u8_deserialize [0] = .ok ([], [])
    ∧ vec_null_deserialize u8_deserialize [5, 0] =
        (match vec_null_deserialize u8_deserialize [0] with
         | .ok (xs, r) => .ok ((5 : Nat) :: xs, r)
         | .error e => .error e) :=
  ⟨(claim5_vec_null_deserialize u8_deserialize u8_consumes).1,
   (claim5_vec_null_deserialize u8_deserialize u8_consumes).2.1 7 (by decide),
   (claim5_vec_null_deserialize u8_deserialize u8_consumes).2.2.1,
   (claim5_vec_null_deserialize u8_deserialize u8_consumes).2.2.2 [5, 0] 5 [0]
     (by decide) rfl⟩

/-! ## Claim C10 — negative `Vec16`/`Vec32` count prefixes -/

/-- C10 (confirmed): when the leading element count of a `Vec16` or
`Vec32` reads back as a negative value, deserialization succeeds with the
empty vector, consuming only the prefix bytes — the Rust iteration
`0..len` over a negative bound is empty, and no error is reported. -/
theorem claim10_negative_count {α : Type} (d : DesFun α) :
    (∀ b0 b1 rest, toSigned16 (b0 * 256 + b1) < 0 →
      vec16_deserialize d (b0 :: b1 :: rest) = .ok ([], rest))
    ∧ (∀ b0 b1 b2 b3 rest, toSigned32 (((b0 * 256 + b1) * 256 + b2) * 256 + b3) < 0 →
      vec32_deserialize d (b0 :: b1 :: b2 :: b3 :: rest) = .ok ([], rest)) := by
  constructor
  · intro b0 b1 rest h
    have ht : (toSigned16 (b0 * 256 + b1)).toNat = 0 := by omega
    simp only [vec16_deserialize, i16_deserialize, ht, deserialize_count]
  · intro b0 b1 b2 b3 rest h
    have ht : (toSigned32 (((b0 * 256 + b1) * 256 + b2) * 256 + b3)).toNat = 0 := by omega
    simp only [vec32_deserialize, i32_deserialize, ht, deserialize_count]

/-- Witness for C10 at the all-ones (−1) prefixes. -/
theorem claim10_negative_count_witness :
    vec16_deserialize u8_deserialize [255, 255, 9] = .ok ([], [9])
    ∧ vec32_deserialize u8_deserialize [255, 255, 255, 255, 9] = .ok ([], [9]) :=
  ⟨(claim10_negative_count u8_deserialize).1 255 255 [9] (by decide),
   (claim10_negative_count u8_deserialize).2 255 255 255 255 [9] (by decide)⟩

/-! ## Claim C2 — `CommandComplete` frame length -/

/-- C2 (code_bug): the two `compose_command_complete` paths disagree.
For the tag `SELECT 1` the body (`tag ++ NUL`) is 9 bytes, so the frame
length must be 13; the `src/backend.rs` path writes 13 as claimed, but
the `src/main.rs` path writes `tag.len() + 4 = 12`, violating
`length = 4 + byte_size(body)` on that code path. -/
theorem claim2_command_complete_length :
    main_compose_command_complete select1_tag
      = [67, 0, 0, 0, 12] ++ (select1_tag ++ [0])
    ∧ (select1_tag ++ [0]).length = 9
    ∧ backend_compose_command_complete select1_tag
      = [67, 0, 0, 0, 13] ++ (select1_tag ++ [0]) := by
  refine ⟨?_, by decide, ?_⟩ <;> decide

/-! ## Claim C7 — frontend kind-byte conversions -/

/-- C7 (code_bug): the source maps `Flush` to byte `'F'` (70) and
`FunctionCall` to `'H'` (72) — swapped relative to the protocol the claim
states — and `TryFrom<u8>` rejects `'P'` (80) as context-dependent even
though `Parse` is unambiguous, so `Parse` does not round trip.  The two
swapped kinds do round trip through the (equally swapped) inverse map. -/
theorem claim7_frontend_kind_bytes :
    FrontendMessageKind.u8_from .Flush = 70
    ∧ FrontendMessageKind.u8_from .FunctionCall = 72
    ∧ FrontendMessageKind.u8_from .Flush ≠ 72
    ∧ FrontendMessageKind.u8_from .FunctionCall ≠ 70
    ∧ FrontendMessageKind.u8_from .Parse = 80
    ∧ FrontendMessageKind.try_from 80 = .error .ambiguousKind
    ∧ FrontendMessageKind.try_from (FrontendMessageKind.u8_from .Flush) = .ok .Flush
    ∧ FrontendMessageKind.try_from (FrontendMessageKind.u8_from .FunctionCall)
        = .ok .FunctionCall :=
  ⟨rfl, rfl, by decide, by decide, rfl, rfl, rfl, rfl⟩

/-! ## Claim C9 — short bodies make the raw decoders panic -/

/-- C9 (confirmed): with a kind-`R` frame whose body holds fewer than 4
bytes, `get_auth_message_kind` panics on the slice `raw_body[0..4]`
instead of returning `None`; and `RawRequest::get` with a declared length
of 6 (a 2-byte startup body) panics on the same slice pattern instead of
returning an error. -/
theorem claim9_short_body_panics :
    RawBackendMessage.get_auth_message_kind
        { header := { message_type := 82, length := 6 }, raw_body := [0, 5] } = .panics
    ∧ RawRequest.get [0, 0, 0, 6, 1, 2] = .panics :=
  ⟨rfl, rfl⟩

/-! ## Claim C4 — MD5 password hashing -/

theorem hex_digit_pos (n : Nat) : 0 < hex_digit n := by
  unfold hex_digit
  split <;> omega

theorem format_lower_hex_no_zero (ds : List Nat) : 0 ∉ format_lower_hex ds := by
  induction ds with
  | nil => simp [format_lower_hex, serialize_all]
  | cons b t ih =>
    simp only [format_lower_hex, serialize_all]
    intro h
    rw [List.mem_append] at h
    cases h with
    | inl h =>
      have h1 := hex_digit_pos (b / 16)
      have h2 := hex_digit_pos (b % 16)
      simp only [List.mem_cons, List.not_mem_nil, or_false] at h
      cases h with
      | inl h => omega
      | inr h => omega
    | inr h => exact ih h

/-- C4 (confirmed): `new_from_user_password` produces exactly
`"md5" || lowerhex(MD5(lowerhex(MD5(password || user)) || salt))` for any
MD5 function, the wire form appends a single NUL byte, and the produced
password never contains a NUL (so the `CString` construction in
`PasswordMessage::new` always succeeds). -/
theorem claim4_password_md5 (md5 : List Nat → List Nat)
    (user password salt : List Nat) :
    new_from_user_password md5 user password salt
      = md5_tag ++ format_lower_hex (md5 (format_lower_hex (md5 (password ++ user)) ++ salt))
    ∧ PasswordMessage.serialize { password := new_from_user_password md5 user password salt }
      = new_from_user_password md5 user password salt ++ [0]
    ∧ 0 ∉ new_from_user_password md5 user password salt := by
  refine ⟨rfl, rfl, ?_⟩
  show 0 ∉ md5_tag ++ format_lower_hex (md5 (format_lower_hex (md5 (password ++ user)) ++ salt))
  intro h
  rw [List.mem_append] at h
  cases h with
  | inl h => simp [md5_tag] at h
  | inr h => exact format_lower_hex_no_zero _ h

/-! ## Parsing well-formed client frames -/

/-- Source `RawFrontendMessage::get` on a correctly framed message followed by
more stream bytes returns the envelope and the remaining stream. -/
theorem raw_frontend_get_frame (kind : Nat) (body tail : List Nat)
    (hlen : (body.length : Int) + 4 < 2147483648) :
    RawFrontendMessage.get (kind :: (i32_serialize ((body.length : Int) + 4) ++ (body ++ tail)))
      = .ret (.ok ({ header := { message_type := kind, length := (body.length : Int) + 4 },
                     raw_body := body }, tail)) := by
  have hno : ¬ ((body ++ tail).length < body.length) := by
    rw [List.length_append]; omega
  have ht : ((body.length : Int) + 4 - 4).toNat = body.length := by omega
  simp only [RawFrontendMessage.get, u8_deserialize,
    i32_round ((body.length : Int) + 4) (body ++ tail) (by omega) hlen]
  rw [if_neg (by omega)]
  rw [ht, if_neg hno, take_append_len, drop_append_len]

/-- Source `RawRequest::get` on a correctly framed request (body at least 4
bytes, opening with a recognized request code) followed by more stream
bytes returns the envelope and the remaining stream. -/
theorem raw_request_get_frame (body tail : List Nat) (k : RequestMessageKind)
    (h4 : 4 ≤ body.length)
    (hlen : (body.length : Int) + 4 < 2147483648)
    (hk : RequestMessageKind.try_from (toSigned32 (be_of (body.take 4))) = .ok k) :
    RawRequest.get (i32_serialize ((body.length : Int) + 4) ++ (body ++ tail))
      = .ret (.ok ({ length := (body.length : Int) + 4, request_kind := k,
                     raw_body := body }, tail)) := by
  have hno : ¬ ((body ++ tail).length < body.length) := by
    rw [List.length_append]; omega
  have ht : ((body.length : Int) + 4 - 4).toNat = body.length := by omega
  simp only [RawRequest.get,
    i32_round ((body.length : Int) + 4) (body ++ tail) (by omega) hlen]
  rw [if_neg (by omega)]
  rw [ht, if_neg hno, take_append_len, drop_append_len]
  rw [if_neg (by omega)]
  simp only [hk]

/-- Deserializing a protocol-3.0 startup body restores its parameter
list. -/
theorem startup_deserialize_frame (params : List ParameterStatus)
    (hp : ∀ p ∈ params, 0 ∉ p.name ∧ 0 ∉ p.value) :
    StartupMessage.deserialize
        ([0, 3, 0, 0] ++ (serialize_all ParameterStatus.serialize params ++ [0]))
      = .ok ({ protocol_version := { major := 3, minor := 0 }, parameters := params }, []) := by
  have hv := ps_vec_null_round params hp
  have h3 : toSigned16 (0 * 256 + 3) = 3 := by decide
  have h0 : toSigned16 (0 * 256 + 0) = 0 := by decide
  simp only [List.cons_append, List.nil_append, StartupMessage.deserialize,
    i16_deserialize, h3, h0, hv]

theorem startup_try_from_frame (L : Int) (params : List ParameterStatus)
    (hp : ∀ p ∈ params, 0 ∉ p.name ∧ 0 ∉ p.value) :
    StartupMessage.try_from
        { length := L, request_kind := .StartupMessage,
          raw_body := startup_body_bytes params }
      = .ok { protocol_version := { major := 3, minor := 0 }, parameters := params } := by
  unfold StartupMessage.try_from startup_body_bytes
  simp only [startup_deserialize_frame params hp]

theorem password_try_from_frame (L : Int) (pw : List Nat) (hpw : 0 ∉ pw) :
    PasswordMessage.try_from
        { header := { message_type := 112, length := L }, raw_body := pw ++ [0] }
      = .ok { password := pw } := by
  have hc : cstring_deserialize (pw ++ [0]) = .ok (pw, []) := by
    have h := cstring_round pw [] hpw
    simpa [cstring_serialize] using h
  unfold PasswordMessage.try_from
  rw [if_pos rfl]
  simp only [PasswordMessage.deserialize, hc]

theorem query_try_from_frame (L : Int) (q : List Nat) (hq : 0 ∉ q) :
    Query.try_from
        { header := { message_type := 81, length := L }, raw_body := q ++ [0] }
      = .ok { query := q } := by
  have hc : cstring_deserialize (q ++ [0]) = .ok (q, []) := by
    have h := cstring_round q [] hq
    simpa [cstring_serialize] using h
  unfold Query.try_from
  rw [if_pos rfl]
  simp only [Query.deserialize, hc]

theorem raw_request_get_startup (params : List ParameterStatus) (tail : List Nat)
    (hps : ((serialize_all ParameterStatus.serialize params).length : Int) + 9
        < 2147483648) :
    RawRequest.get (startup_frame_bytes params ++ tail)
      = .ret (.ok ({ length := ((startup_body_bytes params).length : Int) + 4,
                     request_kind := .StartupMessage,
                     raw_body := startup_body_bytes params }, tail)) := by
  have h4 : 4 ≤ (startup_body_bytes params).length := by
    simp [startup_body_bytes]
  have hlen : ((startup_body_bytes params).length : Int) + 4 < 2147483648 := by
    simp only [startup_body_bytes, List.length_append, List.length_cons, List.length_nil]
    push_cast
    omega
  have hk : RequestMessageKind.try_from
      (toSigned32 (be_of ((startup_body_bytes params).take 4)))
      = .ok .StartupMessage := by
    rw [show ((startup_body_bytes params).take 4) = [0, 3, 0, 0]
      from take_append_len [0, 3, 0, 0] _]
    rfl
  have h := raw_request_get_frame _ tail .StartupMessage h4 hlen hk
  rw [← h]
  try congr 1
  try simp [startup_frame_bytes, startup_body_bytes]

theorem raw_frontend_get_password (pw tail : List Nat)
    (hlen : (pw.length : Int) + 5 < 2147483648) :
    RawFrontendMessage.get (password_frame_bytes pw ++ tail)
      = .ret (.ok ({ header := { message_type := 112,
                                 length := ((pw ++ [0]).length : Int) + 4 },
                     raw_body := pw ++ [0] }, tail)) := by
  have h := raw_frontend_get_frame 112 (pw ++ [0]) tail
    (by simp only [List.length_append, List.length_cons, List.length_nil]; push_cast; omega)
  rw [← h]
  try congr 1
  try simp [password_frame_bytes]

theorem raw_frontend_get_query (q tail : List Nat)
    (hlen : (q.length : Int) + 5 < 2147483648) :
    RawFrontendMessage.get (query_frame_bytes q ++ tail)
      = .ret (.ok ({ header := { message_type := 81,
                                 length := ((q ++ [0]).length : Int) + 4 },
                     raw_body := q ++ [0] }, tail)) := by
  have h := raw_frontend_get_frame 81 (q ++ [0]) tail
    (by simp only [List.length_append, List.length_cons, List.length_nil]; push_cast; omega)
  rw [← h]
  try congr 1
  try simp [query_frame_bytes]

/-! ## Claim C3 — simple-query reply sequence -/

/-- C3 (confirmed): on a well-formed `Query` frame the backend's reply is
exactly `RowDescription`, then `DataRow` frames (zero of them when the
executor's row data is empty, and at most one — the source sends the
whole row set in a single `DataRow`), then `CommandComplete`, then
`ReadyForQuery` with status `'I'` (Idle); the `RowDescription` is sent
even when its column list is empty. -/
theorem claim3_simple_query_reply
    (executor : List Nat → List ColumnDescription × List (List Nat) × List Nat)
    (q rest : List Nat) (desc : List ColumnDescription)
    (rows : List (List Nat)) (tag : List Nat)
    (hq : 0 ∉ q) (hu : isValidUtf8 q = true) (htag : 0 ∉ tag)
    (hlen : (q.length : Int) + 5 < 2147483648)
    (hex : executor q = (desc, rows, tag)) :
    simple_query_handler (query_frame_bytes q ++ rest) executor
      = .ret (RowDescription.frame { columns := desc }
              :: ((if rows = [] then [] else [DataRow.frame { columns := rows }])
                  ++ [CommandComplete.frame { command_tag := tag },
                      ReadyForQuery.frame { transaction_indicator := 73 }]),
             .ok ()) := by
  have hs : into_string q = .ok q := by simp [into_string, hu]
  have hcc : CommandComplete.new tag = .ok { command_tag := tag } := by
    simp [CommandComplete.new, htag]
  unfold simple_query_handler
  simp only [raw_frontend_get_query q rest hlen, query_try_from_frame _ q hq, hs, hex, hcc]
  by_cases hrows : rows = []
  · subst hrows
    simp
  · have hl : 0 < rows.length := List.length_pos.2 hrows
    simp [hrows, hl]

/-- Witness for C3: a one-byte query whose executor returns no columns
and no rows with tag `OK`. -/
theorem claim3_simple_query_reply_witness :
    simple_query_handler (query_frame_bytes [83] ++ [])
        (fun _ => ([], [], [79, 75]))
      = .ret (RowDescription.frame { columns := [] }
              :: ((if ([] : List (List Nat)) = [] then []
                   else [DataRow.frame { columns := [] }])
                  ++ [CommandComplete.frame { command_tag := [79, 75] },
                      ReadyForQuery.frame { transaction_indicator := 73 }]),
             .ok ()) :=
  claim3_simple_query_reply (fun _ => ([], [], [79, 75])) [83] [] [] [] [79, 75]
    (by decide) (by decide) (by decide) (by decide) rfl

/-! ## Claim C6 — authentication failure path -/

/-- C6 (confirmed): when the auth predicate rejects, the server's whole
output for the connection is the `AuthenticationMD5Password` frame (sent
before the password was read) followed by exactly one `ErrorResponse`
frame whose single field has code byte `'M'` (77) and message
`Incorrect password or user`; no `AuthenticationOk` and no
`ReadyForQuery` frame is sent, and the handler returns an error, closing
the connection. -/
theorem claim6_auth_reject (params : List ParameterStatus) (pw rest : List Nat)
    (hp : ∀ p ∈ params, 0 ∉ p.name ∧ 0 ∉ p.value)
    (hps : ((serialize_all ParameterStatus.serialize params).length : Int) + 9
        < 2147483648)
    (hpw : 0 ∉ pw)
    (hpwlen : (pw.length : Int) + 5 < 2147483648) :
    md5_authentication_handler
        (startup_frame_bytes params ++ (password_frame_bytes pw ++ rest)) false
      = .ret ([(AuthenticationMD5Password.new [1, 2, 3, 4]).frame,
               ErrorResponse.frame { messages := [incorrect_password_message] }],
             .error .authFailed) := by
  unfold md5_authentication_handler
  simp only [raw_request_get_startup params (password_frame_bytes pw ++ rest) hps,
    startup_try_from_frame _ params hp,
    raw_frontend_get_password pw rest hpwlen,
    password_try_from_frame _ pw hpw]
  simp

/-- Witness for C6: the empty-parameter startup and the one-byte
password. -/
theorem claim6_auth_reject_witness :
    md5_authentication_handler
        (startup_frame_bytes [] ++ (password_frame_bytes [120] ++ [])) false
      = .ret ([(AuthenticationMD5Password.new [1, 2, 3, 4]).frame,
               ErrorResponse.frame { messages := [incorrect_password_message] }],
             .error .authFailed) :=
  claim6_auth_reject [] [120] [] (by simp) (by decide) (by decide) (by decide)

/-! ## Claim C8 — the salt is the fixed constant `[1,2,3,4]` -/

/-- C8 (code_bug): on every connection and every input stream, whenever
the handler sends anything at all, its first frame is the
`AuthenticationMD5Password` frame with the hard-coded salt `[1,2,3,4]` —
the salt is never random and is identical across connections, violating
the per-connection-randomness requirement. -/
theorem claim8_salt_constant (input : List Nat) (auth : Bool)
    (sent : List (List Nat)) (res : Except Err (List ParameterStatus))
    (h : md5_authentication_handler input auth = .ret (sent, res)) :
    sent = [] ∨ sent.head? = some ((AuthenticationMD5Password.new [1, 2, 3, 4]).frame) := by
  unfold md5_authentication_handler at h
  repeat' split at h
  all_goals simp only [reduceCtorEq, PanicOr.ret.injEq, Prod.mk.injEq] at h
  all_goals obtain ⟨h1, h2⟩ := h
  all_goals subst h1
  all_goals simp

/-- Witness for C8: two runs of the handler — the concrete rejected
handshake and the same stream with an accepting predicate — both start
with the same constant-salt frame. -/
theorem claim8_salt_constant_witness :
    (demo_auth_sent = []
      ∨ demo_auth_sent.head? = some ((AuthenticationMD5Password.new [1, 2, 3, 4]).frame)) :=
  claim8_salt_constant demo_auth_input false demo_auth_sent (.error .authFailed) (by rfl)

end Fpm
